import Mathlib

/-!
Shallow embedding of the fDegen-frontend sources (src/App.tsx and the
GeneratedForm component). Pure values and the boolean render logic are
translated directly; React component state becomes explicit state records
and the JSX tree becomes a record of what is rendered.
-/

namespace FDegen

/-- Base Sepolia chain ID; from src/App.tsx: `const BASE_SEPOLIA_CHAIN_ID = 84532`. -/
def BASE_SEPOLIA_CHAIN_ID : Nat := 84532

/-- From src/App.tsx:
`const isCorrectChain = chainId === undefined || chainId === BASE_SEPOLIA_CHAIN_ID`.
The hook may report no chain id, hence `Option Nat`. -/
def isCorrectChain (chainId : Option Nat) : Bool :=
  chainId.isNone || chainId == some BASE_SEPOLIA_CHAIN_ID

/-- From GeneratedForm: `const showWrongNetwork = isWalletConnected && !isCorrectChain`. -/
def showWrongNetwork (isWalletConnected isCorrectChainProp : Bool) : Bool :=
  isWalletConnected && !isCorrectChainProp

/-- Local React state of GeneratedForm:
`useState(false)` for `isWidgetVisible` and `useState<Error | null>(null)` for
`loadError` (JS `Error` values are modelled by their message string). -/
structure GFState where
  isWidgetVisible : Bool
  loadError : Option String
  deriving Repr, DecidableEq

/-- Initial state of GeneratedForm: widget hidden, no load error. -/
def initGFState : GFState := { isWidgetVisible := false, loadError := none }

/-- From GeneratedForm: `const toggleWidget = () => setIsWidgetVisible(prev => !prev)`. -/
def toggleWidget (s : GFState) : GFState :=
  { s with isWidgetVisible := !s.isWidgetVisible }

/-- Props of GeneratedForm (GeneratedFormProps), with the external adapter and
callback objects reduced to the booleans the render logic branches on:
`adapter.networkConfig` truthiness and presence of `onSwitchToBaseSepolia`. -/
structure GFProps where
  adapterHasNetworkConfig : Bool
  isWalletConnected : Bool
  isCorrectChain : Bool
  hasSwitchCallback : Bool
  isSwitchingChain : Bool
  deriving Repr, DecidableEq

/-- Layout record shared by all four form schemas (`sharedLayout`). -/
structure FormLayout where
  columns : Nat
  spacing : String
  labelPosition : String
  deriving Repr, DecidableEq

/-- From GeneratedForm: `const sharedLayout = { columns: 1, spacing: 'normal', labelPosition: 'top' }`. -/
def sharedLayout : FormLayout :=
  { columns := 1, spacing := "normal", labelPosition := "top" }

/-- Validation configuration shared by all four form schemas (`sharedValidation`). -/
structure FormValidation where
  mode : String
  showErrors : String
  deriving Repr, DecidableEq

/-- From GeneratedForm: `const sharedValidation = { mode: 'onChange', showErrors: 'inline' }`. -/
def sharedValidation : FormValidation :=
  { mode := "onChange", showErrors := "inline" }

/-- Per-field validation record (`validation: { required: true }`). -/
structure FieldValidation where
  required : Bool
  deriving Repr, DecidableEq

/-- One field descriptor of a form schema. The `transforms: {}` empty object is
dropped (it carries no data); `isHardcoded` and `hardcodedValue` are optional
keys, present only on the approve spender field. -/
structure FormField where
  id : String
  name : String
  label : String
  type : String
  placeholder : String
  helperText : String
  defaultValue : String
  validation : FieldValidation
  width : String
  originalParameterType : String
  isHardcoded : Option Bool
  hardcodedValue : Option String
  deriving Repr, DecidableEq

/-- Submit-button descriptor of a form schema. -/
structure SubmitButton where
  text : String
  loadingText : String
  variant : String
  deriving Repr, DecidableEq

/-- A RenderFormSchema value as built in GeneratedForm. The `theme: {}` empty
object is dropped; `defaultValues` is an association list of field name to
default string. -/
structure RenderFormSchema where
  layout : FormLayout
  validation : FormValidation
  functionId : String
  title : String
  description : String
  contractAddress : String
  id : String
  fields : List FormField
  submitButton : SubmitButton
  defaultValues : List (String × String)
  deriving Repr, DecidableEq

/-- Shared contract address (FDegen), from GeneratedForm:
`const CONTRACT_ADDRESS = '0xA18A39F7f5Fa1A6d4aD6B67f6d5578D4002E2f98'`. -/
def CONTRACT_ADDRESS : String := "0xA18A39F7f5Fa1A6d4aD6B67f6d5578D4002E2f98"

/-- The `approveFormSchema` useMemo value of GeneratedForm, verbatim. -/
def approveFormSchema : RenderFormSchema :=
  { layout := sharedLayout
    validation := sharedValidation
    functionId := "approve_address_uint256"
    title := "Approve Form"
    description := "Form for interacting with the Approve function."
    contractAddress := CONTRACT_ADDRESS
    id := "form-approve_address_uint256"
    fields :=
      [ { id := "field-kzn61zp"
          name := "spender"
          label := "Spender"
          type := "blockchain-address"
          placeholder := "0x2472FCd582b6f48D4977b6b1AD44Ad7a0B444827"
          helperText := ""
          defaultValue := ""
          validation := { required := true }
          width := "full"
          originalParameterType := "address"
          isHardcoded := some true
          hardcodedValue := some "0x2472FCd582b6f48D4977b6b1AD44Ad7a0B444827" },
        { id := "field-cgug6zo"
          name := "value"
          label := "Value"
          type := "bigint"
          placeholder := "Enter Value"
          helperText := ""
          defaultValue := ""
          validation := { required := true }
          width := "full"
          originalParameterType := "uint256"
          isHardcoded := none
          hardcodedValue := none } ]
    submitButton :=
      { text := "Execute Approve Form", loadingText := "Processing...", variant := "primary" }
    defaultValues :=
      [("spender", "0x2472FCd582b6f48D4977b6b1AD44Ad7a0B444827"), ("value", "")] }

/-- The `mintFormSchema` useMemo value of GeneratedForm, verbatim
(no args; contract mints 100000 to caller). -/
def mintFormSchema : RenderFormSchema :=
  { layout := sharedLayout
    validation := sharedValidation
    functionId := "mint_"
    title := "Mint"
    description := "Mint 100000 tokens to the caller."
    contractAddress := CONTRACT_ADDRESS
    id := "form-mint"
    fields := []
    submitButton :=
      { text := "Execute Mint", loadingText := "Processing...", variant := "primary" }
    defaultValues := [] }

/-- The `mintAndSendFormSchema` useMemo value of GeneratedForm, verbatim. -/
def mintAndSendFormSchema : RenderFormSchema :=
  { layout := sharedLayout
    validation := sharedValidation
    functionId := "mintAndSend_address"
    title := "Mint And Send"
    description := "Mint 100000 tokens and send them to the specified address."
    contractAddress := CONTRACT_ADDRESS
    id := "form-mintAndSend"
    fields :=
      [ { id := "field-mintAndSend-to"
          name := "to"
          label := "Recipient address"
          type := "blockchain-address"
          placeholder := "0x..."
          helperText := ""
          defaultValue := ""
          validation := { required := true }
          width := "full"
          originalParameterType := "address"
          isHardcoded := none
          hardcodedValue := none } ]
    submitButton :=
      { text := "Execute Mint And Send", loadingText := "Processing...", variant := "primary" }
    defaultValues := [("to", "")] }

/-- The `sendFormSchema` useMemo value of GeneratedForm, verbatim
(recipient address + amount, bound to the transfer function). -/
def sendFormSchema : RenderFormSchema :=
  { layout := sharedLayout
    validation := sharedValidation
    functionId := "transfer_address_uint256"
    title := "Send"
    description := "Transfer a specified amount of tokens to an address."
    contractAddress := CONTRACT_ADDRESS
    id := "form-send"
    fields :=
      [ { id := "field-send-to"
          name := "to"
          label := "Recipient address"
          type := "blockchain-address"
          placeholder := "0x..."
          helperText := ""
          defaultValue := ""
          validation := { required := true }
          width := "full"
          originalParameterType := "address"
          isHardcoded := none
          hardcodedValue := none },
        { id := "field-send-value"
          name := "value"
          label := "Amount"
          type := "bigint"
          placeholder := "Enter amount"
          helperText := ""
          defaultValue := ""
          validation := { required := true }
          width := "full"
          originalParameterType := "uint256"
          isHardcoded := none
          hardcodedValue := none } ]
    submitButton :=
      { text := "Execute Send", loadingText := "Processing...", variant := "primary" }
    defaultValues := [("to", ""), ("value", "")] }

/-- One input or output parameter of a contract function descriptor. -/
structure FunctionParam where
  name : String
  type : String
  displayName : String
  deriving Repr, DecidableEq

/-- One function descriptor of the contract schema. -/
structure ContractFunction where
  id : String
  name : String
  displayName : String
  inputs : List FunctionParam
  outputs : List FunctionParam
  type : String
  stateMutability : String
  modifiesState : Bool
  deriving Repr, DecidableEq

/-- A ContractSchema value as built in GeneratedForm. -/
structure ContractSchema where
  ecosystem : String
  name : String
  address : String
  functions : List ContractFunction
  deriving Repr, DecidableEq

/-- The `contractSchema` useMemo value of GeneratedForm, verbatim: the FDegen
contract descriptor (mint, mintAndSend, transfer, approve, etc.). -/
def contractSchema : ContractSchema :=
  { ecosystem := "evm"
    name := "ContractFromABI"
    address := CONTRACT_ADDRESS
    functions :=
      [ { id := "DOMAIN_SEPARATOR_"
          name := "DOMAIN_SEPARATOR"
          displayName := "D O M A I N_ S E P A R A T O R"
          inputs := []
          outputs := [{ name := "", type := "bytes32", displayName := "Parameter (bytes32)" }]
          type := "function"
          stateMutability := "view"
          modifiesState := false },
        { id := "allowance_address_address"
          name := "allowance"
          displayName := "Allowance"
          inputs :=
            [ { name := "owner", type := "address", displayName := "Owner" },
              { name := "spender", type := "address", displayName := "Spender" } ]
          outputs := [{ name := "", type := "uint256", displayName := "Parameter (uint256)" }]
          type := "function"
          stateMutability := "view"
          modifiesState := false },
        { id := "approve_address_uint256"
          name := "approve"
          displayName := "Approve"
          inputs :=
            [ { name := "spender", type := "address", displayName := "Spender" },
              { name := "value", type := "uint256", displayName := "Value" } ]
          outputs := [{ name := "", type := "bool", displayName := "Parameter (bool)" }]
          type := "function"
          stateMutability := "nonpayable"
          modifiesState := true },
        { id := "balanceOf_address"
          name := "balanceOf"
          displayName := "Balance Of"
          inputs := [{ name := "account", type := "address", displayName := "Account" }]
          outputs := [{ name := "", type := "uint256", displayName := "Parameter (uint256)" }]
          type := "function"
          stateMutability := "view"
          modifiesState := false },
        { id := "decimals_"
          name := "decimals"
          displayName := "Decimals"
          inputs := []
          outputs := [{ name := "", type := "uint8", displayName := "Parameter (uint8)" }]
          type := "function"
          stateMutability := "view"
          modifiesState := false },
        { id := "eip712Domain_"
          name := "eip712Domain"
          displayName := "Eip712 Domain"
          inputs := []
          outputs :=
            [ { name := "fields", type := "bytes1", displayName := "Fields" },
              { name := "name", type := "string", displayName := "Name" },
              { name := "version", type := "string", displayName := "Version" },
              { name := "chainId", type := "uint256", displayName := "Chain Id" },
              { name := "verifyingContract", type := "address", displayName := "Verifying Contract" },
              { name := "salt", type := "bytes32", displayName := "Salt" },
              { name := "extensions", type := "uint256[]", displayName := "Extensions" } ]
          type := "function"
          stateMutability := "view"
          modifiesState := false },
        { id := "mint_"
          name := "mint"
          displayName := "Mint"
          inputs := []
          outputs := []
          type := "function"
          stateMutability := "nonpayable"
          modifiesState := true },
        { id := "mintAndSend_address"
          name := "mintAndSend"
          displayName := "Mint And Send"
          inputs := [{ name := "to", type := "address", displayName := "To" }]
          outputs := []
          type := "function"
          stateMutability := "nonpayable"
          modifiesState := true },
        { id := "name_"
          name := "name"
          displayName := "Name"
          inputs := []
          outputs := [{ name := "", type := "string", displayName := "Parameter (string)" }]
          type := "function"
          stateMutability := "view"
          modifiesState := false },
        { id := "nonces_address"
          name := "nonces"
          displayName := "Nonces"
          inputs := [{ name := "owner", type := "address", displayName := "Owner" }]
          outputs := [{ name := "", type := "uint256", displayName := "Parameter (uint256)" }]
          type := "function"
          stateMutability := "view"
          modifiesState := false },
        { id := "permit_address_address_uint256_uint256_uint8_bytes32_bytes32"
          name := "permit"
          displayName := "Permit"
          inputs :=
            [ { name := "owner", type := "address", displayName := "Owner" },
              { name := "spender", type := "address", displayName := "Spender" },
              { name := "value", type := "uint256", displayName := "Value" },
              { name := "deadline", type := "uint256", displayName := "Deadline" },
              { name := "v", type := "uint8", displayName := "V" },
              { name := "r", type := "bytes32", displayName := "R" },
              { name := "s", type := "bytes32", displayName := "S" } ]
          outputs := []
          type := "function"
          stateMutability := "nonpayable"
          modifiesState := true },
        { id := "symbol_"
          name := "symbol"
          displayName := "Symbol"
          inputs := []
          outputs := [{ name := "", type := "string", displayName := "Parameter (string)" }]
          type := "function"
          stateMutability := "view"
          modifiesState := false },
        { id := "totalSupply_"
          name := "totalSupply"
          displayName := "Total Supply"
          inputs := []
          outputs := [{ name := "", type := "uint256", displayName := "Parameter (uint256)" }]
          type := "function"
          stateMutability := "view"
          modifiesState := false },
        { id := "transfer_address_uint256"
          name := "transfer"
          displayName := "Transfer"
          inputs :=
            [ { name := "to", type := "address", displayName := "To" },
              { name := "value", type := "uint256", displayName := "Value" } ]
          outputs := [{ name := "", type := "bool", displayName := "Parameter (bool)" }]
          type := "function"
          stateMutability := "nonpayable"
          modifiesState := true },
        { id := "transferFrom_address_address_uint256"
          name := "transferFrom"
          displayName := "Transfer From"
          inputs :=
            [ { name := "from", type := "address", displayName := "From" },
              { name := "to", type := "address", displayName := "To" },
              { name := "value", type := "uint256", displayName := "Value" } ]
          outputs := [{ name := "", type := "bool", displayName := "Parameter (bool)" }]
          type := "function"
          stateMutability := "nonpayable"
          modifiesState := true } ] }

/-- The five schema values GeneratedForm builds on a render. In the source they
are `useMemo(() => ..., [])` literals inside the component body: the literals
mention neither props nor state (only the module-level constants), which this
definition mirrors by ignoring both arguments. -/
def gfSchemas (_props : GFProps) (_state : GFState) :
    RenderFormSchema × RenderFormSchema × RenderFormSchema × RenderFormSchema × ContractSchema :=
  (approveFormSchema, mintFormSchema, mintAndSendFormSchema, sendFormSchema, contractSchema)

/-- What one render of GeneratedForm mounts: which conditional blocks appear and
which values are passed as props to the external widgets. -/
structure GFRender where
  actionBarShown : Bool
  wrongNetworkAlertShown : Bool
  switchButtonShown : Bool
  switchButtonDisabled : Bool
  stateWidgetShown : Bool
  stateWidgetSchema : ContractSchema
  stateWidgetError : Option String
  stateWidgetVisible : Bool
  formsShown : Bool
  formSchemas : List RenderFormSchema
  deriving Repr, DecidableEq

/-- The JSX returned by GeneratedForm, as a function of props and state:
the action bar is gated by `adapter.networkConfig`, the wrong-network alert by
`showWrongNetwork` (with the switch button further gated by the optional
callback), the state widget by the truthiness of `contractAddress`, and the
four TransactionForm cards by `!showWrongNetwork`. The widget receives
`schemaToUse` (the injected contract schema) and `error={loadError}`. -/
def renderGeneratedForm (props : GFProps) (state : GFState) : GFRender :=
  let schemas := gfSchemas props state
  let swn := showWrongNetwork props.isWalletConnected props.isCorrectChain
  { actionBarShown := props.adapterHasNetworkConfig
    wrongNetworkAlertShown := swn
    switchButtonShown := swn && props.hasSwitchCallback
    switchButtonDisabled := swn && props.hasSwitchCallback && props.isSwitchingChain
    stateWidgetShown := !(CONTRACT_ADDRESS == "")
    stateWidgetSchema := schemas.2.2.2.2
    stateWidgetError := state.loadError
    stateWidgetVisible := state.isWidgetVisible
    formsShown := !swn
    formSchemas :=
      if swn then []
      else [schemas.1, schemas.2.1, schemas.2.2.1, schemas.2.2.2.1] }

/-- GeneratedForm as mounted by App (src/App.tsx): App passes
`isWalletConnected` from the account hook, `isCorrectChain` computed from the
reported chain id, and always supplies the switch callback. -/
def appRenderGF (hasNetworkConfig isConnected : Bool) (chainId : Option Nat)
    (isSwitchingChain : Bool) (state : GFState) : GFRender :=
  renderGeneratedForm
    { adapterHasNetworkConfig := hasNetworkConfig
      isWalletConnected := isConnected
      isCorrectChain := isCorrectChain chainId
      hasSwitchCallback := true
      isSwitchingChain := isSwitchingChain }
    state

/-- Reachable GeneratedForm states: the initial state, closed under the only
state transition the component wires to an event handler (`toggleWidget`;
`_setLoadError` is never invoked). -/
inductive GFReachable : GFState → Prop where
  | init : GFReachable initGFState
  | toggle (s : GFState) : GFReachable s → GFReachable (toggleWidget s)

/-- One run of the App useEffect body (src/App.tsx lines 41-45):
`if (activeAdapter) setAdapterForForm(prev => prev ?? activeAdapter)`.
Adapters are abstracted to their identities. -/
def adapterEffectStep {α : Type} (activeAdapter adapterForForm : Option α) : Option α :=
  match activeAdapter with
  | some a => some (adapterForForm.getD a)
  | none => adapterForForm

/-- The cached adapter after a sequence of effect runs, one per observed value
of `activeAdapter`, starting from the initial `useState(null)`. -/
def runAdapterEffects {α : Type} (events : List (Option α)) : Option α :=
  events.foldl (fun st act => adapterEffectStep act st) none

/-- The main branch of App: either GeneratedForm with the cached adapter, or
the `Loading adapter...` placeholder. -/
structure AppMainRender (α : Type) where
  loadingShown : Bool
  formAdapter : Option α
  deriving Repr, DecidableEq

/-- From src/App.tsx lines 67-77: render GeneratedForm when `adapterForForm` is
non-null, the loading placeholder otherwise. -/
def appMainRender {α : Type} (adapterForForm : Option α) : AppMainRender α :=
  match adapterForForm with
  | some a => { loadingShown := false, formAdapter := some a }
  | none => { loadingShown := true, formAdapter := none }

/-- Helper: the effect body preserves an already-cached adapter, whatever the
currently active adapter is. -/
theorem adapterEffectStep_some {α : Type} (act : Option α) (x : α) :
    adapterEffectStep act (some x) = some x := by
  cases act <;> rfl

/-- Helper: once the cache holds an adapter, any further sequence of effect
runs leaves it unchanged. -/
theorem foldl_adapterEffectStep_some {α : Type} (events : List (Option α)) (x : α) :
    events.foldl (fun st act => adapterEffectStep act st) (some x) = some x := by
  induction events with
  | nil => rfl
  | cons e es ih => simp [List.foldl_cons, adapterEffectStep_some, ih]

/-- Helper: running the App effect over a sequence of observed active-adapter
values caches exactly the first adapter that became available. -/
theorem runAdapterEffects_eq_findSome {α : Type} (events : List (Option α)) :
    runAdapterEffects events = events.findSome? id := by
  induction events with
  | nil => rfl
  | cons e es ih =>
    cases e with
    | none => simpa [runAdapterEffects, List.findSome?, List.foldl_cons, adapterEffectStep] using ih
    | some a =>
      have h : adapterEffectStep (some a) none = some a := rfl
      simp [runAdapterEffects, List.findSome?, List.foldl_cons, h,
        foldl_adapterEffectStep_some]

/-- Claim C1: for every wallet-connection status and every reported chain id,
the wrong-network banner is rendered if and only if the wallet is connected and
the chain id differs from the fixed target chain id (Base Sepolia, 84532). -/
theorem c1_wrong_network_banner_iff (hasNC isConnected : Bool) (c : Nat)
    (isSwitchingChain : Bool) (st : GFState) :
    (appRenderGF hasNC isConnected (some c) isSwitchingChain st).wrongNetworkAlertShown = true ↔
      isConnected = true ∧ c ≠ BASE_SEPOLIA_CHAIN_ID := by
  cases isConnected <;>
    simp [appRenderGF, renderGeneratedForm, showWrongNetwork, isCorrectChain]

/-- Claim C2: for every combination of connection status and chain id, the four
transaction-form cards are hidden exactly when the network-mismatch condition
holds, the cards shown are exactly the Approve, Mint, MintAndSend and Send
schemas otherwise, and the banner and the forms are never shown together nor
suppressed together. -/
theorem c2_forms_hidden_iff_mismatch (hasNC isConnected : Bool) (chainId : Option Nat)
    (isSwitchingChain : Bool) (st : GFState) :
    ((appRenderGF hasNC isConnected chainId isSwitchingChain st).formsShown = false ↔
      isConnected = true ∧ isCorrectChain chainId = false) ∧
    (appRenderGF hasNC isConnected chainId isSwitchingChain st).formsShown =
      !(appRenderGF hasNC isConnected chainId isSwitchingChain st).wrongNetworkAlertShown ∧
    (appRenderGF hasNC isConnected chainId isSwitchingChain st).formSchemas =
      (if (appRenderGF hasNC isConnected chainId isSwitchingChain st).formsShown then
        [approveFormSchema, mintFormSchema, mintAndSendFormSchema, sendFormSchema] else []) := by
  cases isConnected <;> cases h : isCorrectChain chainId <;>
    simp [appRenderGF, renderGeneratedForm, showWrongNetwork, gfSchemas, h]

/-- Claim C3: when the wallet reports no chain id (chainId undefined), the
chain is treated as correct: even when connected, the wrong-network banner is
not shown and the transaction forms are rendered. -/
theorem c3_undefined_chain_treated_correct (hasNC isConnected isSwitchingChain : Bool)
    (st : GFState) :
    (appRenderGF hasNC isConnected none isSwitchingChain st).wrongNetworkAlertShown = false ∧
    (appRenderGF hasNC isConnected none isSwitchingChain st).formsShown = true := by
  cases isConnected <;>
    simp [appRenderGF, renderGeneratedForm, showWrongNetwork, isCorrectChain]

/-- Claim C4: every function id referenced by one of the four form schemas
occurs as the id of some function descriptor in the contract schema. -/
theorem c4_form_function_ids_exist :
    approveFormSchema.functionId ∈ contractSchema.functions.map ContractFunction.id ∧
    mintFormSchema.functionId ∈ contractSchema.functions.map ContractFunction.id ∧
    mintAndSendFormSchema.functionId ∈ contractSchema.functions.map ContractFunction.id ∧
    sendFormSchema.functionId ∈ contractSchema.functions.map ContractFunction.id := by
  refine ⟨?_, ?_, ?_, ?_⟩ <;> decide

/-- Claim C5: all four form schemas and the contract schema are bound to the
single constant contract address
0xA18A39F7f5Fa1A6d4aD6B67f6d5578D4002E2f98. -/
theorem c5_single_contract_address :
    approveFormSchema.contractAddress = CONTRACT_ADDRESS ∧
    mintFormSchema.contractAddress = CONTRACT_ADDRESS ∧
    mintAndSendFormSchema.contractAddress = CONTRACT_ADDRESS ∧
    sendFormSchema.contractAddress = CONTRACT_ADDRESS ∧
    contractSchema.address = CONTRACT_ADDRESS ∧
    CONTRACT_ADDRESS = "0xA18A39F7f5Fa1A6d4aD6B67f6d5578D4002E2f98" :=
  ⟨rfl, rfl, rfl, rfl, rfl, rfl⟩

/-- Claim C6: the schema objects depend on no prop and no component state, so
any two renders of GeneratedForm produce structurally equal schema objects
(both the memoized five-tuple and the schema handed to the state widget). -/
theorem c6_schemas_stable_across_renders (p p' : GFProps) (s s' : GFState) :
    gfSchemas p s = gfSchemas p' s' ∧
    (renderGeneratedForm p s).stateWidgetSchema = (renderGeneratedForm p' s').stateWidgetSchema :=
  ⟨rfl, rfl⟩

/-- Claim C7: GeneratedForm holds a single optional error value, and on every
render the error passed to the always-mounted contract-state widget is exactly
that held value, unmodified. -/
theorem c7_load_error_passed_through (p : GFProps) (s : GFState) :
    (renderGeneratedForm p s).stateWidgetError = s.loadError ∧
    (renderGeneratedForm p s).stateWidgetShown = true := by
  refine ⟨rfl, ?_⟩
  show (!(CONTRACT_ADDRESS == "")) = true
  decide

/-- Claim C8: the widget-visibility flag starts hidden (false), one invocation
of toggleWidget negates it, and two consecutive invocations restore the state
(the toggle is an involution). -/
theorem c8_toggle_involution :
    initGFState.isWidgetVisible = false ∧
    (∀ s : GFState, (toggleWidget s).isWidgetVisible = !s.isWidgetVisible) ∧
    (∀ s : GFState, toggleWidget (toggleWidget s) = s) := by
  refine ⟨rfl, fun s => rfl, fun s => ?_⟩
  cases s
  simp [toggleWidget]

/-- Claim C9: no reachable code path invokes the load-error setter, so
`loadError` is invariantly null in every reachable GeneratedForm state. -/
theorem c9_load_error_invariant (s : GFState) (h : GFReachable s) : s.loadError = none := by
  induction h with
  | init => rfl
  | toggle s _ ih => simpa [toggleWidget] using ih

/-- Witness for C9 at a concrete reachable state. -/
theorem c9_load_error_invariant_witness :
    GFReachable (toggleWidget initGFState) ∧ (toggleWidget initGFState).loadError = none :=
  ⟨GFReachable.toggle initGFState GFReachable.init,
   c9_load_error_invariant (toggleWidget initGFState)
     (GFReachable.toggle initGFState GFReachable.init)⟩

/-- Claim C10: the cached adapter is write-once: an effect run preserves a
non-null cache whatever the active adapter is; the loading placeholder is
shown exactly while the cache is null, and otherwise the form receives the
cache; across any run of effect executions the cache ends as the first adapter
that became available. -/
theorem c10_adapter_cache_write_once :
    (∀ (act : Option Nat) (x : Nat), adapterEffectStep act (some x) = some x) ∧
    (∀ st : Option Nat,
      (appMainRender st).loadingShown = st.isNone ∧ (appMainRender st).formAdapter = st) ∧
    (∀ events : List (Option Nat), runAdapterEffects events = events.findSome? id) := by
  refine ⟨fun act x => adapterEffectStep_some act x, fun st => ?_,
    fun events => runAdapterEffects_eq_findSome events⟩
  cases st <;> exact ⟨rfl, rfl⟩

end FDegen
